import Mathlib

/-!
Verification development for `twitter_stream.py` (live-tweet-sentiment).

The module is a single class `TwitterStream` that
* reads five credential environment variables and validates them
  (`_validate_credentials`),
* fetches recent posts through an external search client and normalizes
  them into flat records (`get_recent_tweets`),
* exposes a convenience accessor returning the first record
  (`get_stream_sample`).

We embed the data shapes (environment, response, tweet, user, normalized
record) and the three operations as total Lean functions.  Python
exceptions are modelled with `Except String`; the `try/except` wrapper of
`get_recent_tweets` is the `match` in `TwitterStream.get_recent_tweets`
over the fallible body `TwitterStream.get_recent_tweets_body`.  Python
truthiness of an optional string (`None` and `""` are falsy) is `truthy`.
Log output is modelled as a list of `(LogLevel, message)` pairs returned
alongside the result.
-/

/-- The five credential environment variables read in `__init__`
(lines 16-20).  `none` models an unset variable, `some s` a variable set
to the string `s`. -/
structure Env where
  bearer_token : Option String
  api_key : Option String
  api_secret : Option String
  access_token : Option String
  access_token_secret : Option String
deriving Repr, DecidableEq

/-- Python truthiness of an optional string: `None` and the empty string
are falsy, every other string is truthy.  This is the test applied by
`not self.bearer_token` etc. in `_validate_credentials`. -/
def truthy : Option String → Bool
  | none => false
  | some s => !s.isEmpty

/-- The list `missing` built in `_validate_credentials` (lines 39-49):
the name of each of the five variables whose value is falsy, in source
order. -/
def missingCredentials (env : Env) : List String :=
  (if truthy env.bearer_token then [] else ["TWITTER_BEARER_TOKEN"]) ++
  (if truthy env.api_key then [] else ["TWITTER_API_KEY"]) ++
  (if truthy env.api_secret then [] else ["TWITTER_API_SECRET"]) ++
  (if truthy env.access_token then [] else ["TWITTER_ACCESS_TOKEN"]) ++
  (if truthy env.access_token_secret then [] else ["TWITTER_ACCESS_TOKEN_SECRET"])

/-- The `ValueError` message raised by `_validate_credentials`
(line 51). -/
def credentialsErrorMessage (env : Env) : String :=
  "Missing required Twitter API credentials. Need either TWITTER_BEARER_TOKEN or OAuth credentials: "
    ++ String.intercalate ", " (missingCredentials env)

/-- `TwitterStream._validate_credentials` (lines 34-51): succeeds unless
the bearer token is falsy and at least one of the four OAuth 1.0a values
is falsy; on failure raises `ValueError` with the message listing the
missing variable names. -/
def validate_credentials (env : Env) : Except String Unit :=
  if !truthy env.bearer_token &&
     !(truthy env.api_key && truthy env.api_secret &&
       truthy env.access_token && truthy env.access_token_secret) then
    Except.error (credentialsErrorMessage env)
  else
    Except.ok ()

/-- A datetime value, the shape consumed by `strftime("%Y-%m-%d %H:%M:%S")`. -/
structure Datetime where
  year : Nat
  month : Nat
  day : Nat
  hour : Nat
  minute : Nat
  second : Nat
deriving Repr, DecidableEq

/-- Two-digit zero-padded decimal rendering (the `%m`, `%d`, `%H`, `%M`,
`%S` directives; the fields of a Python `datetime` always fit in two
digits). -/
def pad2l (n : Nat) : List Char :=
  [Nat.digitChar (n / 10 % 10), Nat.digitChar (n % 10)]

/-- Four-digit zero-padded decimal rendering (the `%Y` directive; a
Python `datetime` year is between 1 and 9999). -/
def pad4l (n : Nat) : List Char :=
  [Nat.digitChar (n / 1000 % 10), Nat.digitChar (n / 100 % 10),
   Nat.digitChar (n / 10 % 10), Nat.digitChar (n % 10)]

/-- `dt.strftime("%Y-%m-%d %H:%M:%S")` (lines 109). -/
def strftime (dt : Datetime) : String :=
  String.mk (pad4l dt.year ++ ('-' :: pad2l dt.month) ++ ('-' :: pad2l dt.day) ++
    (' ' :: pad2l dt.hour) ++ (':' :: pad2l dt.minute) ++ (':' :: pad2l dt.second))

/-- Whether a string matches the shape produced by the format
`"%Y-%m-%d %H:%M:%S"`: four digits, `-`, two digits, `-`, two digits,
space, two digits, `:`, two digits, `:`, two digits. -/
def matchesTimestampFormat (s : String) : Bool :=
  match s.toList with
  | [y1, y2, y3, y4, c1, m1, m2, c2, d1, d2, c3, h1, h2, c4, n1, n2, c5, s1, s2] =>
    c1 = '-' && c2 = '-' && c3 = ' ' && c4 = ':' && c5 = ':' &&
    ([y1, y2, y3, y4, m1, m2, d1, d2, h1, h2, n1, n2, s1, s2].all Char.isDigit)
  | _ => false

/-- The `public_metrics` mapping of a user; `followers_count` may be
absent from the mapping. -/
structure UserMetrics where
  followers_count : Option Nat
deriving Repr, DecidableEq

/-- An author object from the response side-table (`response.includes['users']`).
`public_metrics` is `none` when the attribute is absent (the
`getattr(user, 'public_metrics', {})` default case, line 116). -/
structure User where
  id : Nat
  username : String
  public_metrics : Option UserMetrics
deriving Repr, DecidableEq

/-- The `public_metrics` mapping of a tweet; each count may be absent
from the mapping (the `.get(key, 0)` defaults, lines 117-118). -/
structure TweetMetrics where
  retweet_count : Option Nat
  like_count : Option Nat
deriving Repr, DecidableEq

/-- A raw post from the response.  `created_at` is `none` when the field
is absent (line 109); `public_metrics` is `none` when
`hasattr(tweet, 'public_metrics')` is false (lines 117-118). -/
structure Tweet where
  id : Nat
  text : String
  created_at : Option Datetime
  author_id : Nat
  public_metrics : Option TweetMetrics
deriving Repr, DecidableEq

/-- A search response: `data` is the optional list of posts
(`response.data`, `None` when absent) and `includes_users` is the
optional author side-table (`response.includes['users']`, `none` when the
`'users'` key is not included). -/
structure Response where
  data : Option (List Tweet)
  includes_users : Option (List User)
deriving Repr, DecidableEq

/-- The normalized output record built for each tweet (lines 111-119). -/
structure Record where
  id : Nat
  username : String
  text : String
  timestamp : String
  user_followers : Nat
  retweet_count : Nat
  like_count : Nat
deriving Repr, DecidableEq

/-- The dict comprehension `{user.id: user for user in ...}` followed by
`users.get(author_id)` (lines 101, 105): the lookup returns the user
whose id matches, a later duplicate id overwriting an earlier one. -/
def userLookup (users : List User) (aid : Nat) : Option User :=
  users.foldl (fun acc u => if u.id = aid then some u else acc) none

/-- The body of the `for tweet in response.data` loop (lines 103-119):
builds one normalized record from one tweet, with the documented
defaults for a missing author, missing `created_at` and missing
metrics.  `now` is the value of `datetime.now()`. -/
def processTweet (users : List User) (now : Datetime) (tweet : Tweet) : Record :=
  let user := userLookup users tweet.author_id
  { id := tweet.id
    username := match user with
      | some u => "@" ++ u.username
      | none => "Unknown User"
    text := tweet.text
    timestamp := match tweet.created_at with
      | some dt => strftime dt
      | none => strftime now
    user_followers := match user with
      | none => 0
      | some u => match u.public_metrics with
        | none => 0
        | some m => m.followers_count.getD 0
    retweet_count := match tweet.public_metrics with
      | none => 0
      | some m => m.retweet_count.getD 0
    like_count := match tweet.public_metrics with
      | none => 0
      | some m => m.like_count.getD 0 }

/-- Severity of a log line. -/
inductive LogLevel where
  | info
  | warning
  | error
deriving Repr, DecidableEq

/-- A log line: severity and message. -/
def LogEntry := LogLevel × String
deriving instance Repr, DecidableEq for LogEntry

/-- A `TwitterStream` instance after `__init__`: the hashtag, the query
built from it, and the search capability of the underlying client.  The
client takes the query string and the `max_results` bound and either
returns a response or raises. -/
structure TwitterStream where
  hashtag : String
  query : String
  client : String → Nat → Except String Response

/-- The query built in `__init__` (line 30): `f"{hashtag} -is:retweet"`. -/
def mkQuery (hashtag : String) : String :=
  hashtag ++ " -is:retweet"

/-- The `try` block of `get_recent_tweets` (lines 78-123): performs the
search, returns `[]` with a warning when the response holds no posts,
and otherwise maps every post to a normalized record.  An `Except.error`
is an exception escaping the block. -/
def TwitterStream.get_recent_tweets_body (self : TwitterStream) (count : Nat)
    (now : Datetime) : Except String (List Record × List LogEntry) := do
  let response ← self.client self.query count
  match response.data with
  | none =>
    pure ([], [(LogLevel.warning, "No tweets found matching query: " ++ self.query)])
  | some [] =>
    pure ([], [(LogLevel.warning, "No tweets found matching query: " ++ self.query)])
  | some tweets =>
    let users := response.includes_users.getD []
    let processed := tweets.map (processTweet users now)
    pure (processed,
      [(LogLevel.info, "Fetched " ++ toString processed.length ++
        " tweets with hashtag " ++ self.hashtag)])

/-- `TwitterStream.get_recent_tweets` (lines 76-127): the body wrapped in
`try/except Exception`, so any exception is logged and converted to the
empty list. -/
def TwitterStream.get_recent_tweets (self : TwitterStream) (count : Nat)
    (now : Datetime) : List Record × List LogEntry :=
  match self.get_recent_tweets_body count now with
  | Except.ok r => r
  | Except.error e => ([], [(LogLevel.error, "Error fetching tweets: " ++ e)])

/-- `TwitterStream.get_stream_sample` (lines 129-137): fetch with
`count=5`, return `None` on an empty result, else the first record. -/
def TwitterStream.get_stream_sample (self : TwitterStream) (now : Datetime) :
    Option Record :=
  let tweets := (self.get_recent_tweets 5 now).1
  match tweets with
  | [] => none
  | t :: _ => some t

/-! Sample values used by the witness theorems. -/

/-- A fixed "current time" value. -/
def now0 : Datetime := ⟨2026, 10, 12, 9, 30, 0⟩

/-- A sample author with id 7. -/
def sampleUser : User :=
  { id := 7, username := "alice", public_metrics := some ⟨some 123⟩ }

/-- A sample post whose author id 42 has no side-table entry and with no
`created_at` and no `public_metrics`. -/
def sampleTweet1 : Tweet :=
  { id := 1, text := "hello world", created_at := none, author_id := 42,
    public_metrics := none }

/-- A sample post with a matching author and all optional fields. -/
def sampleTweet2 : Tweet :=
  { id := 2, text := "hi", created_at := some ⟨2026, 10, 11, 1, 2, 3⟩,
    author_id := 7, public_metrics := some ⟨some 4, some 5⟩ }

/-- A sample non-empty response with a one-author side-table. -/
def sampleResponse : Response :=
  { data := some [sampleTweet1, sampleTweet2], includes_users := some [sampleUser] }

/-- A stream whose client always returns `sampleResponse`. -/
def sampleStream : TwitterStream :=
  { hashtag := "#h", query := mkQuery "#h", client := fun _ _ => Except.ok sampleResponse }

/-- A stream whose client always returns a response with no posts. -/
def emptyStream : TwitterStream :=
  { hashtag := "#h", query := mkQuery "#h",
    client := fun _ _ => Except.ok { data := none, includes_users := none } }

/-- A stream whose client always raises. -/
def failingStream : TwitterStream :=
  { hashtag := "#h", query := mkQuery "#h", client := fun _ _ => Except.error "boom" }

/-! Helper lemmas shared by the claim theorems. -/

/-- When the client returns a response with a non-empty post list, the
fetch result is the image of the post list under `processTweet`. -/
theorem get_recent_tweets_ok (s : TwitterStream) (count : Nat) (now : Datetime)
    (resp : Response) (t : Tweet) (ts : List Tweet)
    (hc : s.client s.query count = Except.ok resp)
    (hd : resp.data = some (t :: ts)) :
    (s.get_recent_tweets count now).1 =
      (t :: ts).map (processTweet (resp.includes_users.getD []) now) := by
  simp [TwitterStream.get_recent_tweets, TwitterStream.get_recent_tweets_body, hc, hd,
    Bind.bind, Except.bind, Pure.pure, Except.pure]

/-- `Nat.digitChar` of a digit is a digit character. -/
theorem digitChar_isDigit (n : Nat) (h : n < 10) : (Nat.digitChar n).isDigit = true := by
  interval_cases n <;> decide

/-- `Nat.digitChar` of anything reduced mod 10 is a digit character. -/
theorem digitChar_mod_isDigit (n : Nat) : (Nat.digitChar (n % 10)).isDigit = true :=
  digitChar_isDigit _ (Nat.mod_lt _ (by decide))

/-- Every `strftime` output matches the `"%Y-%m-%d %H:%M:%S"` shape. -/
theorem strftime_matches (dt : Datetime) :
    matchesTimestampFormat (strftime dt) = true := by
  simp [matchesTimestampFormat, strftime, pad4l, pad2l, String.toList,
    digitChar_mod_isDigit]

/-- No `strftime` output is the empty string. -/
theorem strftime_ne_empty (dt : Datetime) : strftime dt ≠ "" := by
  intro h
  have hm := strftime_matches dt
  rw [h] at hm
  exact absurd hm (by decide)

/-! The claim theorems. -/

/-- C1: any exception raised inside the `try` block of `get_recent_tweets`
(during the search or during normalization) is caught: the operation
returns the empty list together with an error log line, and never
propagates the exception. -/
theorem fetchRecent_absorbs_exceptions (s : TwitterStream) (count : Nat)
    (now : Datetime) (e : String)
    (h : s.get_recent_tweets_body count now = Except.error e) :
    s.get_recent_tweets count now =
      ([], [(LogLevel.error, "Error fetching tweets: " ++ e)]) := by
  unfold TwitterStream.get_recent_tweets
  rw [h]

/-- Witness for C1 at a client that raises `"boom"`. -/
theorem fetchRecent_absorbs_exceptions_witness :
    failingStream.get_recent_tweets 10 now0 =
      ([], [(LogLevel.error, "Error fetching tweets: boom")]) :=
  fetchRecent_absorbs_exceptions failingStream 10 now0 "boom" rfl

/-- C6: on a response with no posts (absent or empty post list),
`get_recent_tweets` returns the empty list and a single warning log
line; it neither raises nor logs an error. -/
theorem fetchRecent_no_posts_warns (s : TwitterStream) (count : Nat)
    (now : Datetime) (resp : Response)
    (hc : s.client s.query count = Except.ok resp)
    (hd : resp.data = none ∨ resp.data = some []) :
    s.get_recent_tweets count now =
      ([], [(LogLevel.warning, "No tweets found matching query: " ++ s.query)]) := by
  rcases hd with hd | hd <;>
    simp [TwitterStream.get_recent_tweets, TwitterStream.get_recent_tweets_body, hc, hd,
      Bind.bind, Except.bind, Pure.pure, Except.pure]

/-- Witness for C6 at a client returning a post-free response. -/
theorem fetchRecent_no_posts_warns_witness :
    emptyStream.get_recent_tweets 10 now0 =
      ([], [(LogLevel.warning, "No tweets found matching query: #h -is:retweet")]) :=
  fetchRecent_no_posts_warns emptyStream 10 now0
    { data := none, includes_users := none } rfl (Or.inl rfl)

/-- C7: `get_stream_sample` returns `none` exactly when
`get_recent_tweets` with count 5 returns the empty list, and otherwise
returns exactly the first element of that list. -/
theorem getSample_first_of_five (s : TwitterStream) (now : Datetime) :
    ((s.get_recent_tweets 5 now).1 = [] → s.get_stream_sample now = none) ∧
    (∀ t ts, (s.get_recent_tweets 5 now).1 = t :: ts →
      s.get_stream_sample now = some t) := by
  constructor
  · intro h
    unfold TwitterStream.get_stream_sample
    rw [h]
  · intro t ts h
    unfold TwitterStream.get_stream_sample
    rw [h]

/-- Witness for C7 at the sample stream: the sample is the normalization
of the first returned post. -/
theorem getSample_first_of_five_witness :
    sampleStream.get_stream_sample now0 =
      some (processTweet [sampleUser] now0 sampleTweet1) :=
  (getSample_first_of_five sampleStream now0).2
    (processTweet [sampleUser] now0 sampleTweet1)
    [processTweet [sampleUser] now0 sampleTweet2] rfl

/-- C2: on a non-empty post list the fetch produces exactly one record
per post, and a missing author side-table degrades every record to the
missing-author defaults instead of raising. -/
theorem fetchRecent_one_record_per_post (s : TwitterStream) (count : Nat)
    (now : Datetime) (resp : Response) (ts : List Tweet)
    (hc : s.client s.query count = Except.ok resp)
    (hd : resp.data = some ts) (hne : ts ≠ []) :
    (s.get_recent_tweets count now).1.length = ts.length ∧
    (resp.includes_users = none →
      ∀ r ∈ (s.get_recent_tweets count now).1,
        r.username = "Unknown User" ∧ r.user_followers = 0) := by
  obtain ⟨t, ts', rfl⟩ := List.exists_cons_of_ne_nil hne
  rw [get_recent_tweets_ok s count now resp t ts' hc hd]
  constructor
  · simp
  · intro hinc r hr
    rw [hinc] at hr
    obtain ⟨tw, _, rfl⟩ := List.mem_map.mp hr
    constructor <;> rfl

/-- Witness for C2 at the sample stream (two posts in the response). -/
theorem fetchRecent_one_record_per_post_witness :
    (sampleStream.get_recent_tweets 10 now0).1.length = 2 :=
  (fetchRecent_one_record_per_post sampleStream 10 now0 sampleResponse
    [sampleTweet1, sampleTweet2] rfl rfl (by decide)).1

/-- C4: a post whose author id has no side-table entry is normalized
with the sentinel username `"Unknown User"` and 0 followers; a matching
author yields the display form `"@handle"`. -/
theorem fetchRecent_missing_author_defaults (s : TwitterStream) (count : Nat)
    (now : Datetime) (resp : Response) (ts : List Tweet) (tweet : Tweet)
    (hc : s.client s.query count = Except.ok resp)
    (hd : resp.data = some ts) (hmem : tweet ∈ ts) :
    processTweet (resp.includes_users.getD []) now tweet ∈
      (s.get_recent_tweets count now).1 ∧
    (userLookup (resp.includes_users.getD []) tweet.author_id = none →
      (processTweet (resp.includes_users.getD []) now tweet).username = "Unknown User" ∧
      (processTweet (resp.includes_users.getD []) now tweet).user_followers = 0) ∧
    (∀ u, userLookup (resp.includes_users.getD []) tweet.author_id = some u →
      (processTweet (resp.includes_users.getD []) now tweet).username =
        "@" ++ u.username) := by
  obtain ⟨t, ts', rfl⟩ := List.exists_cons_of_ne_nil (List.ne_nil_of_mem hmem)
  refine ⟨?_, ?_, ?_⟩
  · rw [get_recent_tweets_ok s count now resp t ts' hc hd]
    exact List.mem_map_of_mem _ hmem
  · intro hu
    simp [processTweet, hu]
  · intro u hu
    simp [processTweet, hu]

/-- Witness for C4: post `sampleTweet1` has author id 42, absent from
the side-table. -/
theorem fetchRecent_missing_author_defaults_witness :
    (processTweet [sampleUser] now0 sampleTweet1).username = "Unknown User" ∧
    (processTweet [sampleUser] now0 sampleTweet1).user_followers = 0 :=
  (fetchRecent_missing_author_defaults sampleStream 10 now0 sampleResponse
    [sampleTweet1, sampleTweet2] sampleTweet1 rfl rfl (by decide)).2.1 rfl

/-- C5: a post with no `public_metrics` is normalized with both counts
0; with `public_metrics` present, each count is taken from the mapping
with 0 as the default for an absent key. -/
theorem fetchRecent_missing_metrics_defaults (s : TwitterStream) (count : Nat)
    (now : Datetime) (resp : Response) (ts : List Tweet) (tweet : Tweet)
    (hc : s.client s.query count = Except.ok resp)
    (hd : resp.data = some ts) (hmem : tweet ∈ ts) :
    processTweet (resp.includes_users.getD []) now tweet ∈
      (s.get_recent_tweets count now).1 ∧
    (tweet.public_metrics = none →
      (processTweet (resp.includes_users.getD []) now tweet).retweet_count = 0 ∧
      (processTweet (resp.includes_users.getD []) now tweet).like_count = 0) ∧
    (∀ m, tweet.public_metrics = some m →
      (processTweet (resp.includes_users.getD []) now tweet).retweet_count =
        m.retweet_count.getD 0 ∧
      (processTweet (resp.includes_users.getD []) now tweet).like_count =
        m.like_count.getD 0) := by
  obtain ⟨t, ts', rfl⟩ := List.exists_cons_of_ne_nil (List.ne_nil_of_mem hmem)
  refine ⟨?_, ?_, ?_⟩
  · rw [get_recent_tweets_ok s count now resp t ts' hc hd]
    exact List.mem_map_of_mem _ hmem
  · intro hm
    simp [processTweet, hm]
  · intro m hm
    simp [processTweet, hm]

/-- Witness for C5: post `sampleTweet1` has no `public_metrics`. -/
theorem fetchRecent_missing_metrics_defaults_witness :
    (processTweet [sampleUser] now0 sampleTweet1).retweet_count = 0 ∧
    (processTweet [sampleUser] now0 sampleTweet1).like_count = 0 :=
  (fetchRecent_missing_metrics_defaults sampleStream 10 now0 sampleResponse
    [sampleTweet1, sampleTweet2] sampleTweet1 rfl rfl (by decide)).2.1 rfl

/-- C8: a post with no `created_at` is normalized with the current time
formatted as `"%Y-%m-%d %H:%M:%S"` — a non-empty string matching that
pattern; a present `created_at` is formatted with the same pattern. -/
theorem fetchRecent_timestamp_format (s : TwitterStream) (count : Nat)
    (now : Datetime) (resp : Response) (ts : List Tweet) (tweet : Tweet)
    (hc : s.client s.query count = Except.ok resp)
    (hd : resp.data = some ts) (hmem : tweet ∈ ts) :
    processTweet (resp.includes_users.getD []) now tweet ∈
      (s.get_recent_tweets count now).1 ∧
    (tweet.created_at = none →
      (processTweet (resp.includes_users.getD []) now tweet).timestamp = strftime now ∧
      (processTweet (resp.includes_users.getD []) now tweet).timestamp ≠ "" ∧
      matchesTimestampFormat
        (processTweet (resp.includes_users.getD []) now tweet).timestamp = true) ∧
    (∀ dt, tweet.created_at = some dt →
      (processTweet (resp.includes_users.getD []) now tweet).timestamp = strftime dt ∧
      matchesTimestampFormat
        (processTweet (resp.includes_users.getD []) now tweet).timestamp = true) := by
  obtain ⟨t, ts', rfl⟩ := List.exists_cons_of_ne_nil (List.ne_nil_of_mem hmem)
  refine ⟨?_, ?_, ?_⟩
  · rw [get_recent_tweets_ok s count now resp t ts' hc hd]
    exact List.mem_map_of_mem _ hmem
  · intro hca
    refine ⟨by simp [processTweet, hca], ?_, ?_⟩
    · simp [processTweet, hca, strftime_ne_empty]
    · simp [processTweet, hca, strftime_matches]
  · intro dt hca
    refine ⟨by simp [processTweet, hca], ?_⟩
    simp [processTweet, hca, strftime_matches]

/-- Witness for C8: post `sampleTweet1` has no `created_at`, so its
record carries the formatted current time. -/
theorem fetchRecent_timestamp_format_witness :
    (processTweet [sampleUser] now0 sampleTweet1).timestamp = strftime now0 ∧
    (processTweet [sampleUser] now0 sampleTweet1).timestamp ≠ "" ∧
    matchesTimestampFormat (processTweet [sampleUser] now0 sampleTweet1).timestamp =
      true :=
  (fetchRecent_timestamp_format sampleStream 10 now0 sampleResponse
    [sampleTweet1, sampleTweet2] sampleTweet1 rfl rfl (by decide)).2.1 rfl

/-- The environment with all five credential variables unset. -/
def envAllUnset : Env := ⟨none, none, none, none, none⟩

/-- The environment with the bearer token set to the empty string and
the four OAuth values unset. -/
def envEmptyBearer : Env := ⟨some "", none, none, none, none⟩

/-- C3: validation succeeds iff the bearer token is truthy or all four
OAuth values are truthy; on failure the error message is the fixed
header followed by the comma-joined missing list, and that list contains
exactly the names of the falsy variables of both schemes. -/
theorem validate_credentials_spec (env : Env) :
    (validate_credentials env = Except.ok () ↔
      (truthy env.bearer_token = true ∨
        (truthy env.api_key = true ∧ truthy env.api_secret = true ∧
         truthy env.access_token = true ∧ truthy env.access_token_secret = true))) ∧
    (∀ m, validate_credentials env = Except.error m →
      m = "Missing required Twitter API credentials. Need either TWITTER_BEARER_TOKEN or OAuth credentials: "
            ++ String.intercalate ", " (missingCredentials env) ∧
      ("TWITTER_BEARER_TOKEN" ∈ missingCredentials env ↔
        truthy env.bearer_token = false) ∧
      ("TWITTER_API_KEY" ∈ missingCredentials env ↔ truthy env.api_key = false) ∧
      ("TWITTER_API_SECRET" ∈ missingCredentials env ↔
        truthy env.api_secret = false) ∧
      ("TWITTER_ACCESS_TOKEN" ∈ missingCredentials env ↔
        truthy env.access_token = false) ∧
      ("TWITTER_ACCESS_TOKEN_SECRET" ∈ missingCredentials env ↔
        truthy env.access_token_secret = false)) := by
  unfold validate_credentials credentialsErrorMessage missingCredentials
  cases hb : truthy env.bearer_token <;>
    cases hk : truthy env.api_key <;>
      cases hs : truthy env.api_secret <;>
        cases ht : truthy env.access_token <;>
          cases hts : truthy env.access_token_secret <;>
            simp

/-- Witness for C3 at the all-unset environment: validation fails and
the missing list holds all five names. -/
theorem validate_credentials_spec_witness :
    "Missing required Twitter API credentials. Need either TWITTER_BEARER_TOKEN or OAuth credentials: TWITTER_BEARER_TOKEN, TWITTER_API_KEY, TWITTER_API_SECRET, TWITTER_ACCESS_TOKEN, TWITTER_ACCESS_TOKEN_SECRET"
        = "Missing required Twitter API credentials. Need either TWITTER_BEARER_TOKEN or OAuth credentials: "
            ++ String.intercalate ", " (missingCredentials envAllUnset) ∧
    ("TWITTER_BEARER_TOKEN" ∈ missingCredentials envAllUnset ↔
      truthy envAllUnset.bearer_token = false) ∧
    ("TWITTER_API_KEY" ∈ missingCredentials envAllUnset ↔
      truthy envAllUnset.api_key = false) ∧
    ("TWITTER_API_SECRET" ∈ missingCredentials envAllUnset ↔
      truthy envAllUnset.api_secret = false) ∧
    ("TWITTER_ACCESS_TOKEN" ∈ missingCredentials envAllUnset ↔
      truthy envAllUnset.access_token = false) ∧
    ("TWITTER_ACCESS_TOKEN_SECRET" ∈ missingCredentials envAllUnset ↔
      truthy envAllUnset.access_token_secret = false) :=
  (validate_credentials_spec envAllUnset).2
    "Missing required Twitter API credentials. Need either TWITTER_BEARER_TOKEN or OAuth credentials: TWITTER_BEARER_TOKEN, TWITTER_API_KEY, TWITTER_API_SECRET, TWITTER_ACCESS_TOKEN, TWITTER_ACCESS_TOKEN_SECRET"
    rfl

/-- C9: a credential variable set to the empty string is treated exactly
like an unset one — validation of an environment whose bearer token is
`""` coincides with validation after unsetting it, and when the OAuth
set is incomplete validation fails with the bearer token name in the
missing list. -/
theorem empty_string_credential_is_missing (env : Env)
    (h : env.bearer_token = some "") :
    validate_credentials env = validate_credentials { env with bearer_token := none } ∧
    missingCredentials env = missingCredentials { env with bearer_token := none } ∧
    (¬(truthy env.api_key = true ∧ truthy env.api_secret = true ∧
        truthy env.access_token = true ∧ truthy env.access_token_secret = true) →
      validate_credentials env = Except.error (credentialsErrorMessage env) ∧
      "TWITTER_BEARER_TOKEN" ∈ missingCredentials env) := by
  have he : ("" : String).isEmpty = true := rfl
  refine ⟨?_, ?_, ?_⟩
  · unfold validate_credentials credentialsErrorMessage missingCredentials
    simp [h, truthy, he]
  · unfold missingCredentials
    simp [h, truthy, he]
  · intro hoauth
    constructor
    · unfold validate_credentials
      cases hk : truthy env.api_key <;>
        cases hs : truthy env.api_secret <;>
          cases ht : truthy env.access_token <;>
            cases hts : truthy env.access_token_secret <;>
              simp_all [h, truthy, he]
    · unfold missingCredentials
      simp [h, truthy, he]

/-- Witness for C9: bearer token `""`, OAuth values unset. -/
theorem empty_string_credential_is_missing_witness :
    validate_credentials envEmptyBearer =
      validate_credentials { envEmptyBearer with bearer_token := none } ∧
    missingCredentials envEmptyBearer =
      missingCredentials { envEmptyBearer with bearer_token := none } ∧
    (¬(truthy envEmptyBearer.api_key = true ∧
        truthy envEmptyBearer.api_secret = true ∧
        truthy envEmptyBearer.access_token = true ∧
        truthy envEmptyBearer.access_token_secret = true) →
      validate_credentials envEmptyBearer =
        Except.error (credentialsErrorMessage envEmptyBearer) ∧
      "TWITTER_BEARER_TOKEN" ∈ missingCredentials envEmptyBearer) :=
  empty_string_credential_is_missing envEmptyBearer rfl

/-- C10: whenever validation fails, the bearer token is necessarily
falsy, so the missing list — and hence the error message built from it —
always contains `TWITTER_BEARER_TOKEN`. -/
theorem missing_list_always_names_bearer (env : Env) (m : String)
    (h : validate_credentials env = Except.error m) :
    "TWITTER_BEARER_TOKEN" ∈ missingCredentials env ∧
    m = credentialsErrorMessage env := by
  unfold validate_credentials at h
  split at h
  case isTrue hcond =>
    have hb : truthy env.bearer_token = false := by
      cases hbb : truthy env.bearer_token
      · rfl
      · rw [hbb] at hcond; simp at hcond
    refine ⟨?_, ?_⟩
    · unfold missingCredentials
      simp [hb]
    · injection h with h2
      exact h2.symm
  case isFalse =>
    exact absurd h (by simp)

/-- Witness for C10 at the all-unset environment. -/
theorem missing_list_always_names_bearer_witness :
    "TWITTER_BEARER_TOKEN" ∈ missingCredentials envAllUnset ∧
    credentialsErrorMessage envAllUnset = credentialsErrorMessage envAllUnset :=
  missing_list_always_names_bearer envAllUnset
    (credentialsErrorMessage envAllUnset) rfl
